import Mathlib

/-!
Shallow embedding of pyatv/airplay/__init__.py: the AirPlay feature registry,
the stream session (play_url / close), and the protocol orchestrator (setup)
with its remote-control bridge. External collaborators (HTTP connection,
cryptographic verify, the player, the local content server, the MRP factory,
the remote control channel) are modelled as outcome oracles supplied in an
environment record, so every run of the embedded code is a pure function of
its inputs.
-/

deriving instance DecidableEq for Except

namespace PyAtv

/-- Python exceptions raised by this slice of the code base. -/
inductive PyErr where
  | notSupportedError (msg : String)
  | connectionError (msg : String)
  | authenticationError (msg : String)
  | otherError (msg : String)
  deriving DecidableEq, Repr

/-- Subset of pyatv.const.FeatureName relevant here; other members are
represented by an index. -/
inductive FeatureName where
  | PlayUrl
  | other (n : Nat)
  deriving DecidableEq, Repr

/-- Subset of pyatv.const.FeatureState used by this module. -/
inductive FeatureState where
  | Available
  | Unavailable
  deriving DecidableEq, Repr

/-- pyatv.const.Protocol members. -/
inductive Protocol where
  | AirPlay
  | MRP
  | DMAP
  | Companion
  | RAOP
  deriving DecidableEq, Repr

/-- pyatv.auth.hap_pairing.AuthenticationType. -/
inductive AuthenticationType where
  | Null
  | Legacy
  | HAP
  | Transient
  deriving DecidableEq, Repr

/-- Python truthiness of an optional string: None and the empty string are
falsy, every other string is truthy. -/
def strTruthy : Option String → Bool
  | none => false
  | some s => !s.isEmpty

/-- Modelled from the spec: DeviceService (pyatv.conf service object, not under
src/): identity, network port, optional opaque credential blob. The protocol
field keys the service inside the configuration. -/
structure Service where
  protocol : Protocol
  identifier : Option String
  port : Nat
  credentials : Option String
  deriving DecidableEq, Repr

/-- Modelled from the spec: the shared device configuration (pyatv.conf.AppleTV,
not under src/) holding an address and the discovered services; add_service is
an append and get_service a lookup by protocol. -/
structure AppleTVConfig where
  address : String
  services : List Service
  deriving DecidableEq, Repr

/-- Modelled from the spec: conf.AppleTV.get_service — find the service for a
protocol, None when absent. -/
def AppleTVConfig.get_service (c : AppleTVConfig) (p : Protocol) : Option Service :=
  c.services.find? (fun s => s.protocol == p)

/-- Modelled from the spec: conf.AppleTV.add_service — a one-time,
non-idempotent append of a service entry. -/
def AppleTVConfig.add_service (c : AppleTVConfig) (s : Service) : AppleTVConfig :=
  { c with services := c.services ++ [s] }

/-- The placeholder secondary service appended by the bridge:
conf.MrpService(None, 0) — no identifier, unresolved port, no credentials. -/
def mrpPlaceholder : Service :=
  { protocol := Protocol.MRP, identifier := none, port := 0, credentials := none }

/-- AirPlayFeatures.get_feature: Available exactly for PlayUrl with truthy
credentials, Unavailable otherwise. -/
def AirPlayFeatures.get_feature (service : Service) (feature_name : FeatureName) :
    FeatureState :=
  let has_credentials := strTruthy service.credentials
  if feature_name = FeatureName.PlayUrl ∧ has_credentials = true then
    FeatureState.Available
  else
    FeatureState.Unavailable

/-- Mutable state of one AirPlayStream instance: the tracked play task slot. -/
structure StreamState where
  play_task : Option Nat
  deriving DecidableEq, Repr

/-- Outcome of awaiting the player task. -/
inductive PlayOutcome where
  | ok
  | err (e : PyErr)
  | cancelled
  deriving DecidableEq, Repr

/-- Oracle environment for one play_url call: the outcome of each external
suspension point, plus the position keyword argument. -/
structure PlayEnv where
  pathExists : Bool
  serverStart : Except PyErr Unit
  connect : Except PyErr Nat
  verify : Except PyErr Unit
  position : Option Int
  play : PlayOutcome
  deriving DecidableEq, Repr

/-- How one play_url call returned to its caller. -/
inductive CallResult where
  | ok
  | raised (e : PyErr)
  | cancelled
  deriving DecidableEq, Repr

/-- Observable effects and final state of one play_url call. -/
structure PlayUrlRun where
  result : CallResult
  play_task : Option Nat
  serverStarted : Bool
  serverStopped : Bool
  connectionOpened : Bool
  connectionClosed : Bool
  playerInvoked : Option Int
  deriving DecidableEq, Repr

/-- The try/finally block of play_url: connect, verify, hand the url and
position to the player, and in the finally clause clear the task slot, close
the connection when one exists and stop the server when one exists. -/
def runTryFinally (env : PlayEnv) (serverStarted : Bool) : PlayUrlRun :=
  match env.connect with
  | Except.error e =>
      { result := CallResult.raised e, play_task := none,
        serverStarted := serverStarted, serverStopped := serverStarted,
        connectionOpened := false, connectionClosed := false,
        playerInvoked := none }
  | Except.ok _ =>
      match env.verify with
      | Except.error e =>
          { result := CallResult.raised e, play_task := none,
            serverStarted := serverStarted, serverStopped := serverStarted,
            connectionOpened := true, connectionClosed := true,
            playerInvoked := none }
      | Except.ok _ =>
          let position : Int := env.position.getD 0
          let base : PlayUrlRun :=
            { result := CallResult.ok, play_task := none,
              serverStarted := serverStarted, serverStopped := serverStarted,
              connectionOpened := true, connectionClosed := true,
              playerInvoked := some position }
          match env.play with
          | PlayOutcome.ok => base
          | PlayOutcome.err e => { base with result := CallResult.raised e }
          | PlayOutcome.cancelled => { base with result := CallResult.cancelled }

/-- AirPlayStream.play_url. The service is resolved from the configuration as
in AirPlayStream.__init__; a missing service raises NotSupportedError before
any I/O. When the url names a local file the content server is started before
the try block, so a failing server start propagates without entering the
finally clause. -/
def AirPlayStream.play_url (config : AppleTVConfig) (s : StreamState)
    (env : PlayEnv) : PlayUrlRun :=
  match config.get_service Protocol.AirPlay with
  | none =>
      { result := CallResult.raised (PyErr.notSupportedError "AirPlay service is not available"),
        play_task := s.play_task, serverStarted := false, serverStopped := false,
        connectionOpened := false, connectionClosed := false,
        playerInvoked := none }
  | some _ =>
      if env.pathExists then
        match env.serverStart with
        | Except.error e =>
            { result := CallResult.raised e, play_task := s.play_task,
              serverStarted := false, serverStopped := false,
              connectionOpened := false, connectionClosed := false,
              playerInvoked := none }
        | Except.ok _ => runTryFinally env true
      else
        runTryFinally env false

/-- A play_url call reaches the connection phase when a service is configured
and, for a local file, the content server started successfully. -/
def reachesConnection (config : AppleTVConfig) (env : PlayEnv) : Bool :=
  (config.get_service Protocol.AirPlay).isSome &&
    (!env.pathExists || (match env.serverStart with
      | Except.ok _ => true
      | Except.error _ => false))

/-- Result of AirPlayStream.close: the new state and whether a tracked task was
cancelled. -/
structure CloseRun where
  state : StreamState
  cancelledTask : Bool
  deriving DecidableEq, Repr

/-- AirPlayStream.close: cancel the tracked task when one exists and clear the
slot; otherwise do nothing. -/
def AirPlayStream.close (s : StreamState) : CloseRun :=
  match s.play_task with
  | some _ => { state := { play_task := none }, cancelledTask := true }
  | none => { state := s, cancelledTask := false }

/-- The primary descriptor connect operation (async def _connect: pass): a
no-op on the stream state. -/
def primary_connect (s : StreamState) : StreamState := s

/-- The primary descriptor close operation (_close): call stream.close and
return the empty set of background tasks. -/
def primary_close (s : StreamState) : CloseRun × List Nat :=
  (AirPlayStream.close s, [])

/-- Bridge eligibility: the if/elif/else chain guarding the remote control
channel in setup, a function of is_supported(service) and the extracted
credential type. -/
def bridgeEligible (rcSupported : Bool) (credType : AuthenticationType) : Bool :=
  if rcSupported = false then
    false
  else if credType ∉ [AuthenticationType.HAP, AuthenticationType.Transient] then
    false
  else
    true

/-- One yielded protocol descriptor: protocol identity and advertised feature
set (the connect/close operations are modelled separately). -/
structure Descriptor where
  protocol : Protocol
  features : List FeatureName
  deriving DecidableEq, Repr

/-- Oracle environment for one setup run: the outcomes of the external
remote_control.is_supported check, of extract_credentials, and the feature set
returned by the MRP factory. -/
structure SetupEnv where
  rcSupported : Bool
  credType : AuthenticationType
  mrpFeatures : List FeatureName
  deriving DecidableEq, Repr

/-- The primary descriptor yielded first by setup: the AirPlay protocol with
the PlayUrl feature set. -/
def primaryDescriptor : Descriptor :=
  { protocol := Protocol.AirPlay, features := [FeatureName.PlayUrl] }

/-- The secondary descriptor yielded by setup when the bridge is eligible: the
MRP protocol with the feature set returned by the MRP factory. -/
def mrpDescriptor (features : List FeatureName) : Descriptor :=
  { protocol := Protocol.MRP, features := features }

/-- The full run of the setup generator: none when the assertion on a present
AirPlay service fails; otherwise the final configuration and the yielded
descriptor sequence in order. -/
def setupRun (config : AppleTVConfig) (env : SetupEnv) :
    Option (AppleTVConfig × List Descriptor) :=
  match config.get_service Protocol.AirPlay with
  | none => none
  | some _ =>
      if bridgeEligible env.rcSupported env.credType then
        some (config.add_service mrpPlaceholder,
          [primaryDescriptor, mrpDescriptor env.mrpFeatures])
      else
        some (config, [primaryDescriptor])

/-- Observable behaviour of one _connect_rc invocation. -/
structure RcConnectRun where
  raised : Option PyErr
  mrpInvoked : Bool
  connected : Bool
  deriving DecidableEq, Repr

/-- The secondary descriptor connect operation (_connect_rc): await
control.start inside try/except; an exception there is caught and logged and
mrp_connect is not invoked; otherwise mrp_connect runs and its outcome
propagates unchanged. -/
def connect_rc (startResult : Except PyErr Unit) (mrpResult : Except PyErr Unit) :
    RcConnectRun :=
  match startResult with
  | Except.error _ => { raised := none, mrpInvoked := false, connected := false }
  | Except.ok _ =>
      match mrpResult with
      | Except.ok _ => { raised := none, mrpInvoked := true, connected := true }
      | Except.error e => { raised := some e, mrpInvoked := true, connected := false }

/-- The secondary descriptor close operation (_close_rc): the union of the MRP
close tasks and the control stop tasks. -/
def close_rc (mrpTasks : List Nat) (controlTasks : List Nat) : List Nat :=
  mrpTasks ++ controlTasks

/-! Concrete inputs used by witnesses and counterexamples. -/

/-- A configured AirPlay service with non-empty credentials. -/
def svcEx : Service :=
  { protocol := Protocol.AirPlay, identifier := some "id1", port := 7000,
    credentials := some "creds" }

/-- A configuration carrying the AirPlay service. -/
def cfgEx : AppleTVConfig := { address := "10.0.0.2", services := [svcEx] }

/-- A DMAP service, present so the no-AirPlay configuration is not empty. -/
def svcDmap : Service :=
  { protocol := Protocol.DMAP, identifier := none, port := 3689,
    credentials := none }

/-- A configuration carrying no AirPlay service. -/
def cfgNoAirPlay : AppleTVConfig :=
  { address := "10.0.0.2", services := [svcDmap] }

/-! Helper lemmas shared by the claim theorems. -/

/-- Truthiness of an optional credential string characterised. -/
theorem strTruthy_iff (o : Option String) :
    strTruthy o = true ↔ ∃ c, o = some c ∧ c ≠ "" := by
  cases o with
  | none => simp [strTruthy]
  | some c => simp [strTruthy, Bool.eq_false_iff, String.isEmpty_iff]

/-- Availability of a feature characterised from the definition. -/
theorem get_feature_available_iff (service : Service) (fn : FeatureName) :
    AirPlayFeatures.get_feature service fn = FeatureState.Available ↔
      (fn = FeatureName.PlayUrl ∧ strTruthy service.credentials = true) := by
  dsimp only [AirPlayFeatures.get_feature]
  split
  · next h => simp [h]
  · next h => simp [h]

/-- Every branch of the try/finally block clears the task slot, closes the
connection when it reports one opened and stops the server when one was
started. -/
theorem runTryFinally_cleanup (env : PlayEnv) (st : Bool) :
    (runTryFinally env st).play_task = none ∧
    ((runTryFinally env st).connectionOpened = true →
      (runTryFinally env st).connectionClosed = true) ∧
    ((runTryFinally env st).serverStarted = true →
      (runTryFinally env st).serverStopped = true) := by
  unfold runTryFinally
  cases env.connect with
  | error e => simp
  | ok n =>
    cases env.verify with
    | error e => simp
    | ok u =>
      cases env.play with
      | ok => simp
      | err e => simp
      | cancelled => simp

/-- The player is either never invoked or handed exactly the position taken
from the options with default 0. -/
theorem playerInvoked_none_or (config : AppleTVConfig) (s : StreamState)
    (env : PlayEnv) :
    (AirPlayStream.play_url config s env).playerInvoked = none ∨
    (AirPlayStream.play_url config s env).playerInvoked =
      some (env.position.getD 0) := by
  cases h1 : config.get_service Protocol.AirPlay <;>
    cases h2 : env.pathExists <;>
    cases h3 : env.serverStart <;>
    cases h4 : env.connect <;>
    cases h5 : env.verify <;>
    cases h6 : env.play <;>
    simp [AirPlayStream.play_url, runTryFinally, h1, h2, h3, h4, h5, h6]

/-! Claim theorems. -/

/-- Claim C1: every play_url call that reaches the connection phase terminates
with the play task slot cleared to None, the HTTP connection closed whenever
one was opened, and the local content server stopped whenever one was started,
for every outcome of connect, verify and playback, cancellation included. -/
theorem c1_play_url_terminal_cleanup (config : AppleTVConfig) (s : StreamState)
    (env : PlayEnv) (h : reachesConnection config env = true) :
    (AirPlayStream.play_url config s env).play_task = none ∧
    ((AirPlayStream.play_url config s env).connectionOpened = true →
      (AirPlayStream.play_url config s env).connectionClosed = true) ∧
    ((AirPlayStream.play_url config s env).serverStarted = true →
      (AirPlayStream.play_url config s env).serverStopped = true) := by
  unfold reachesConnection at h
  cases h1 : config.get_service Protocol.AirPlay with
  | none => rw [h1] at h; simp at h
  | some sv =>
    rw [h1] at h
    cases h2 : env.pathExists with
    | false =>
      simp only [AirPlayStream.play_url, h1, h2, Bool.false_eq_true, if_false]
      exact runTryFinally_cleanup env false
    | true =>
      cases h3 : env.serverStart with
      | error e => rw [h2, h3] at h; simp at h
      | ok u =>
        simp only [AirPlayStream.play_url, h1, h2, h3, if_true]
        exact runTryFinally_cleanup env true

/-- Environment for the C1 witness: a local file, server start succeeds,
connect succeeds, verify fails. -/
def envC1 : PlayEnv :=
  { pathExists := true, serverStart := Except.ok (), connect := Except.ok 1,
    verify := Except.error (PyErr.authenticationError "bad"), position := none,
    play := PlayOutcome.ok }

/-- Witness for claim C1 at a concrete run whose verify step fails. -/
theorem c1_witness :
    reachesConnection cfgEx envC1 = true ∧
    ((AirPlayStream.play_url cfgEx { play_task := some 5 } envC1).play_task = none ∧
     ((AirPlayStream.play_url cfgEx { play_task := some 5 } envC1).connectionOpened = true →
       (AirPlayStream.play_url cfgEx { play_task := some 5 } envC1).connectionClosed = true) ∧
     ((AirPlayStream.play_url cfgEx { play_task := some 5 } envC1).serverStarted = true →
       (AirPlayStream.play_url cfgEx { play_task := some 5 } envC1).serverStopped = true)) :=
  ⟨by decide, c1_play_url_terminal_cleanup cfgEx { play_task := some 5 } envC1 (by decide)⟩

/-- Claim C2: whenever the remote control channel start step raises, the
secondary connect operation absorbs the failure: it does not invoke the MRP
connect, does not raise, leaves the channel not connected — while setup, run
on an eligible configuration, still yielded a secondary MRP descriptor. -/
theorem c2_rc_start_failure_absorbed (config : AppleTVConfig) (env : SetupEnv)
    (e : PyErr) (mrpResult : Except PyErr Unit)
    (hcfg : (config.get_service Protocol.AirPlay).isSome = true)
    (hb : bridgeEligible env.rcSupported env.credType = true) :
    connect_rc (Except.error e) mrpResult =
      { raised := none, mrpInvoked := false, connected := false } ∧
    ∃ c2 ds, setupRun config env = some (c2, ds) ∧
      ∃ d ∈ ds, d.protocol = Protocol.MRP := by
  refine ⟨rfl, ?_⟩
  obtain ⟨sv, hs⟩ := Option.isSome_iff_exists.mp hcfg
  refine ⟨config.add_service mrpPlaceholder,
    [primaryDescriptor, mrpDescriptor env.mrpFeatures], ?_, ?_⟩
  · simp [setupRun, hs, hb]
  · exact ⟨mrpDescriptor env.mrpFeatures, by simp, rfl⟩

/-- Eligible setup environment used by witnesses. -/
def envEligible : SetupEnv :=
  { rcSupported := true, credType := AuthenticationType.HAP,
    mrpFeatures := [FeatureName.other 3] }

/-- Witness for claim C2 at a concrete eligible run whose start step raises a
connection error. -/
theorem c2_witness :
    (cfgEx.get_service Protocol.AirPlay).isSome = true ∧
    bridgeEligible envEligible.rcSupported envEligible.credType = true ∧
    (connect_rc (Except.error (PyErr.connectionError "down")) (Except.ok ()) =
      { raised := none, mrpInvoked := false, connected := false } ∧
     ∃ c2 ds, setupRun cfgEx envEligible = some (c2, ds) ∧
       ∃ d ∈ ds, d.protocol = Protocol.MRP) :=
  ⟨by decide, by decide,
    c2_rc_start_failure_absorbed cfgEx envEligible
      (PyErr.connectionError "down") (Except.ok ()) (by decide) (by decide)⟩

/-- Claim C3: bridge eligibility is a pure function of the supported flag and
the credential kind, true exactly when the flag holds and the kind is HAP
(persistent pair) or Transient, false for every other combination. -/
theorem c3_bridge_eligibility_characterised (rcSupported : Bool)
    (credType : AuthenticationType) :
    bridgeEligible rcSupported credType = true ↔
      (rcSupported = true ∧
        (credType = AuthenticationType.HAP ∨
         credType = AuthenticationType.Transient)) := by
  cases rcSupported <;> cases credType <;> decide

/-- Claim C4: for every configuration carrying an AirPlay service, setup
yields the primary AirPlay descriptor first, exactly one AirPlay descriptor in
total, exactly one MRP descriptor when the bridge is eligible and none
otherwise; with the supported flag false the sequence has exactly one
element. -/
theorem c4_setup_descriptor_sequence (config : AppleTVConfig) (env : SetupEnv)
    (h : (config.get_service Protocol.AirPlay).isSome = true) :
    ∃ c2 ds, setupRun config env = some (c2, ds) ∧
      ds.head? = some primaryDescriptor ∧
      ds.countP (fun d => d.protocol == Protocol.AirPlay) = 1 ∧
      ds.countP (fun d => d.protocol == Protocol.MRP) =
        (if bridgeEligible env.rcSupported env.credType then 1 else 0) ∧
      ds.length = (if bridgeEligible env.rcSupported env.credType then 2 else 1) ∧
      (env.rcSupported = false → ds.length = 1) := by
  obtain ⟨sv, hs⟩ := Option.isSome_iff_exists.mp h
  cases hb : bridgeEligible env.rcSupported env.credType with
  | true =>
    refine ⟨config.add_service mrpPlaceholder,
      [primaryDescriptor, mrpDescriptor env.mrpFeatures],
      by simp [setupRun, hs, hb], rfl,
      by simp [List.countP_cons, List.countP_nil, primaryDescriptor, mrpDescriptor],
      by simp [List.countP_cons, List.countP_nil, primaryDescriptor, mrpDescriptor, hb],
      by simp [hb], ?_⟩
    intro hr
    rw [hr] at hb
    simp [bridgeEligible] at hb
  | false =>
    exact ⟨config, [primaryDescriptor], by simp [setupRun, hs, hb], rfl,
      by simp [List.countP_cons, List.countP_nil, primaryDescriptor],
      by simp [List.countP_cons, List.countP_nil, primaryDescriptor, hb],
      by simp [hb], fun _ => rfl⟩

/-- Ineligible setup environment used by witnesses: the supported flag is
false. -/
def envUnsupported : SetupEnv :=
  { rcSupported := false, credType := AuthenticationType.HAP, mrpFeatures := [] }

/-- Witness for claim C4 at a concrete configuration with the supported flag
false. -/
theorem c4_witness :
    (cfgEx.get_service Protocol.AirPlay).isSome = true ∧
    (∃ c2 ds, setupRun cfgEx envUnsupported = some (c2, ds) ∧
      ds.head? = some primaryDescriptor ∧
      ds.countP (fun d => d.protocol == Protocol.AirPlay) = 1 ∧
      ds.countP (fun d => d.protocol == Protocol.MRP) =
        (if bridgeEligible envUnsupported.rcSupported envUnsupported.credType
         then 1 else 0) ∧
      ds.length = (if bridgeEligible envUnsupported.rcSupported
        envUnsupported.credType then 2 else 1) ∧
      (envUnsupported.rcSupported = false → ds.length = 1)) :=
  ⟨by decide, c4_setup_descriptor_sequence cfgEx envUnsupported (by decide)⟩

/-- Claim C5: for every AirPlay service value, PlayUrl is reported Available
exactly when the stored credentials are a non-empty string, and no feature at
all is reported Available without such a credential; the decision reads only
the stored credentials. -/
theorem c5_get_feature_credentials (service : Service) :
    (AirPlayFeatures.get_feature service FeatureName.PlayUrl =
        FeatureState.Available ↔
      ∃ c, service.credentials = some c ∧ c ≠ "") ∧
    ∀ fn : FeatureName,
      AirPlayFeatures.get_feature service fn = FeatureState.Available →
        ∃ c, service.credentials = some c ∧ c ≠ "" := by
  constructor
  · rw [get_feature_available_iff, ← strTruthy_iff]
    simp
  · intro fn hfn
    rw [get_feature_available_iff] at hfn
    exact (strTruthy_iff service.credentials).mp hfn.2

/-- Claim C6: play_url on a stream whose configuration has no AirPlay service
raises NotSupportedError with no effect at all: no server started, no
connection opened, no player invoked, and the task slot left exactly as it
was. -/
theorem c6_play_url_no_service (config : AppleTVConfig) (s : StreamState)
    (env : PlayEnv) (h : config.get_service Protocol.AirPlay = none) :
    AirPlayStream.play_url config s env =
      { result := CallResult.raised
          (PyErr.notSupportedError "AirPlay service is not available"),
        play_task := s.play_task, serverStarted := false,
        serverStopped := false, connectionOpened := false,
        connectionClosed := false, playerInvoked := none } := by
  unfold AirPlayStream.play_url
  rw [h]

/-- Witness for claim C6 at a concrete configuration that carries only a DMAP
service. -/
theorem c6_witness :
    cfgNoAirPlay.get_service Protocol.AirPlay = none ∧
    AirPlayStream.play_url cfgNoAirPlay { play_task := some 7 } envC1 =
      { result := CallResult.raised
          (PyErr.notSupportedError "AirPlay service is not available"),
        play_task := some 7, serverStarted := false,
        serverStopped := false, connectionOpened := false,
        connectionClosed := false, playerInvoked := none } :=
  ⟨by decide, c6_play_url_no_service cfgNoAirPlay { play_task := some 7 } envC1
    (by decide)⟩

/-- Claim C7: the primary descriptor connect operation is a no-op on the
stream state; its close operation returns the empty set of background tasks,
cancels the tracked StreamTask whenever one is tracked and leaves the task
slot cleared, and a second close finds no tracked task to cancel, so close is
safe without a prior connect and safe to repeat. -/
theorem c7_primary_connect_noop_close_idempotent (s : StreamState) :
    primary_connect s = s ∧
    (primary_close s).2 = [] ∧
    (primary_close s).1.state.play_task = none ∧
    (∀ t, s.play_task = some t → (primary_close s).1.cancelledTask = true) ∧
    (primary_close ((primary_close s).1.state)).1.cancelledTask = false := by
  refine ⟨rfl, rfl, ?_, ?_, ?_⟩ <;>
    cases h : s.play_task <;>
    simp [primary_close, AirPlayStream.close, h]

/-- Environment whose play_url run reaches playback with position -1 in the
options. -/
def envC8neg : PlayEnv :=
  { pathExists := false, serverStart := Except.ok (), connect := Except.ok 1,
    verify := Except.ok (), position := some (-1), play := PlayOutcome.ok }

/-- Counterexample to claim C8 as stated: a play_url call that reaches
playback with position -1 in its options hands the player the negative value
-1, so the handed position is not always zero-or-positive. -/
theorem c8_counterexample_negative_position :
    (AirPlayStream.play_url cfgEx { play_task := none } envC8neg).playerInvoked
      = some (-1) ∧ ¬ (0 ≤ (-1 : Int)) := by decide

/-- Claim C8 (amended): every play_url call that reaches playback hands the
player exactly the integer taken from the position option of the call,
defaulting to 0 when absent; the handed value is zero-or-positive exactly when
the option is absent or zero-or-positive — the code does not validate the
sign. -/
theorem c8_position_handed (config : AppleTVConfig) (s : StreamState)
    (env : PlayEnv)
    (h : (AirPlayStream.play_url config s env).playerInvoked.isSome = true) :
    (AirPlayStream.play_url config s env).playerInvoked =
      some (env.position.getD 0) ∧
    (0 ≤ env.position.getD 0 ↔
      (env.position = none ∨ ∃ p, env.position = some p ∧ 0 ≤ p)) := by
  constructor
  · rcases playerInvoked_none_or config s env with h0 | h0
    · rw [h0] at h; simp at h
    · exact h0
  · cases hp : env.position <;> simp [hp]

/-- Environment whose play_url run reaches playback with position 3 in the
options. -/
def envC8w : PlayEnv :=
  { pathExists := false, serverStart := Except.ok (), connect := Except.ok 1,
    verify := Except.ok (), position := some 3, play := PlayOutcome.ok }

/-- Witness for claim C8 (amended) at a concrete run with position 3. -/
theorem c8_witness :
    (AirPlayStream.play_url cfgEx { play_task := none } envC8w).playerInvoked.isSome = true ∧
    ((AirPlayStream.play_url cfgEx { play_task := none } envC8w).playerInvoked =
       some (envC8w.position.getD 0) ∧
     (0 ≤ envC8w.position.getD 0 ↔
       (envC8w.position = none ∨ ∃ p, envC8w.position = some p ∧ 0 ≤ p))) :=
  ⟨by decide, c8_position_handed cfgEx { play_task := none } envC8w (by decide)⟩

/-- Claim C9: a setup run on a configuration carrying an AirPlay service
leaves the configuration unchanged when the bridge is ineligible, and when it
is eligible changes it only by appending the single placeholder MRP service
entry (no identifier, port 0) to the service list, the address untouched. -/
theorem c9_setup_config_mutation (config : AppleTVConfig) (env : SetupEnv)
    (h : (config.get_service Protocol.AirPlay).isSome = true) :
    ∃ ds, setupRun config env =
      some ((if bridgeEligible env.rcSupported env.credType then
               { address := config.address,
                 services := config.services ++ [mrpPlaceholder] }
             else config), ds) := by
  obtain ⟨sv, hs⟩ := Option.isSome_iff_exists.mp h
  cases hb : bridgeEligible env.rcSupported env.credType with
  | true =>
    exact ⟨[primaryDescriptor, mrpDescriptor env.mrpFeatures],
      by simp [setupRun, hs, hb, AppleTVConfig.add_service]⟩
  | false =>
    exact ⟨[primaryDescriptor], by simp [setupRun, hs, hb]⟩

/-- Witness for claim C9 at a concrete eligible run. -/
theorem c9_witness :
    (cfgEx.get_service Protocol.AirPlay).isSome = true ∧
    ∃ ds, setupRun cfgEx envEligible =
      some ((if bridgeEligible envEligible.rcSupported envEligible.credType then
               { address := cfgEx.address,
                 services := cfgEx.services ++ [mrpPlaceholder] }
             else cfgEx), ds) :=
  ⟨by decide, c9_setup_config_mutation cfgEx envEligible (by decide)⟩

/-- Claim C10: when the remote control channel start succeeds and the MRP
connect then raises, the exception propagates unchanged out of the secondary
connect operation; only the start step is covered by the error absorption. -/
theorem c10_mrp_connect_error_propagates (e : PyErr) :
    connect_rc (Except.ok ()) (Except.error e) =
      { raised := some e, mrpInvoked := true, connected := false } := rfl

end PyAtv
